import Mathlib

/-!
Shallow embedding of the behavioral scoring engine of `backend/server.py`
(the `_face`, `_default` and calibration-loading code), with the claims of
the specification settled as theorems.

Numeric modelling: Python floats are modelled as rationals (`ℚ`); Python's
banker's rounding `round(x, d)` is modelled by `pyRound`; deques with
`maxlen=10` are modelled as lists with a capped push.  The two
landmark-derived quantities that involve transcendental functions — the
per-eye eye-aspect-ratio (Euclidean norms, `math.sqrt`) and the head roll
(`math.atan2`) — are handled as follows: the EAR formula itself is embedded
over `ℝ` (`earOf` below), and the per-frame pipeline takes the two per-eye
EAR values and the roll angle (in degrees) as input features, exactly the
values the source computes upstream of the decision logic.
-/

/-- Python's `round` to an integer: round-half-to-even (banker's rounding). -/
def pyRoundInt (x : ℚ) : ℤ :=
  if x - ⌊x⌋ < 1/2 then ⌊x⌋
  else if (1:ℚ)/2 < x - ⌊x⌋ then ⌊x⌋ + 1
  else if ⌊x⌋ % 2 = 0 then ⌊x⌋ else ⌊x⌋ + 1

/-- Python's `round(x, d)` on our rational model of floats. -/
def pyRound (x : ℚ) (d : ℕ) : ℚ := (pyRoundInt (x * 10 ^ d) : ℚ) / 10 ^ d

/-- `collections.deque(maxlen=cap)`: append on the right, evict from the left
once the capacity is exceeded. -/
def dequePush {α : Type} (cap : ℕ) (x : α) (l : List α) : List α :=
  let l2 := l ++ [x]
  if cap < l2.length then l2.drop (l2.length - cap) else l2

/-- The per-frame input features read by the decision logic of `_face`
(server.py lines 220–330).  Fields are the landmark coordinates the code
reads directly, plus the two per-eye EAR values and the roll angle, which
the code derives via `np.linalg.norm` / `math.atan2` (see `earOf` for the
EAR formula itself). -/
structure FrameFeatures where
  nose_y : ℚ          -- lm[1].y
  forehead_y : ℚ      -- lm[10].y
  chin_y : ℚ          -- lm[152].y
  nose_x : ℚ          -- lm[1].x
  le_x : ℚ            -- lm[33].x  (left eye corner)
  re_x : ℚ            -- lm[263].x (right eye corner)
  left_ear : ℚ        -- ear([33, 7, 163, 144, 145, 153])
  right_ear : ℚ       -- ear([362, 398, 384, 385, 387, 263])
  roll : ℚ            -- math.degrees(math.atan2(re.y - le.y, re.x - le.x))
  lip_left_x : ℚ      -- lm[61].x
  lip_right_x : ℚ     -- lm[291].x
  mouth_top_y : ℚ     -- lm[13].y
  mouth_bottom_y : ℚ  -- lm[14].y
  brow_l1_y : ℚ       -- lm[107].y
  brow_l2_y : ℚ       -- lm[66].y
  brow_r1_y : ℚ       -- lm[336].y
  brow_r2_y : ℚ       -- lm[296].y
  nose_bridge_y : ℚ   -- lm[6].y
deriving DecidableEq

/-- The mutable module-level smoothing state of server.py (lines 69–77):
`prev_emotion`, `prev_conf`, `head_down_n`, `eyes_low_n`, `gaze_history`
(deque of 0/1, maxlen 10), `distraction_history` (deque of floats,
maxlen 10). -/
structure SessionState where
  prev_emotion : String
  prev_conf : ℚ
  head_down_n : ℕ
  eyes_low_n : ℕ
  gaze_history : List ℕ
  distraction_history : List ℚ
deriving DecidableEq

/-- The dict returned by `_face` / `_default` / `_screen`'s face analogue. -/
structure AnalysisResult where
  fatigue_score : ℚ
  gaze_direction : String
  distraction_score : ℚ
  blink_rate : ℚ
  emotion : String
  emotion_confidence : ℚ
  body_action : String
deriving DecidableEq

/-- Per-category calibration averages, the fields of `CALIB[cat]["avg"]`
that the thresholds read. -/
structure CalibAvg where
  ear : ℚ
  nose_pos : ℚ
  mouth_ratio : ℚ
  brow_raise : ℚ

/-- The calibration profile `CALIB`: each category is present or absent
(`"fatigue" in CALIB` tests etc.). -/
structure CalibProfile where
  fatigue : Option CalibAvg
  focus : Option CalibAvg
  happy : Option CalibAvg
  sad : Option CalibAvg

/-- The empty profile `CALIB = {}`. -/
def emptyProfile : CalibProfile := ⟨none, none, none, none⟩

/-- Derived feature thresholds (server.py lines 223–237). -/
structure Thresholds where
  th_ear : ℚ
  th_nose : ℚ
  th_mouth : ℚ
  th_brow : ℚ
deriving DecidableEq

/-- Threshold derivation from the calibration profile, with the fixed
fallback constants (server.py lines 223–237): `th_ear`/`th_nose` are
recomputed only when both `fatigue` and `focus` are present, `th_mouth`
when `happy` is, `th_brow` when `sad` is. -/
def thresholdsOf (c : CalibProfile) : Thresholds :=
  { th_ear :=
      match c.fatigue, c.focus with
      | some fa, some fo => (fa.ear + fo.ear) / 2
      | _, _ => 22/100
    th_nose :=
      match c.fatigue, c.focus with
      | some fa, some fo => (fa.nose_pos + fo.nose_pos) / 2
      | _, _ => 65/100
    th_mouth :=
      match c.happy with
      | some h => h.mouth_ratio * (7/10)
      | none => 8/100
    th_brow :=
      match c.sad with
      | some sd => sd.brow_raise * (12/10)
      | none => 15/1000 }

/-- Loading of `calibration.json` (server.py lines 55–63).  `none` models a
missing file (the `os.path.exists` test fails), `some none` models a file
whose `json.load` raises (the `except` branch); both leave `CALIB = {}`.
The function is total: loading never propagates an exception. -/
def loadCalibration : Option (Option CalibProfile) → CalibProfile
  | some (some c) => c
  | some none => emptyProfile
  | none => emptyProfile

/-- `nose_pos = (nose.y - forehead.y) / face_h if face_h > 0 else 0.5`
with `face_h = abs(chin.y - forehead.y)` (lines 253–255). -/
def nosePos (f : FrameFeatures) : ℚ :=
  if |f.chin_y - f.forehead_y| > 0 then
    (f.nose_y - f.forehead_y) / |f.chin_y - f.forehead_y|
  else 1/2

/-- `avg_ear = (left_ear + right_ear) / 2.0` (line 249). -/
def avgEar (f : FrameFeatures) : ℚ := (f.left_ear + f.right_ear) / 2

/-- `pitch_f = max(0, min(1, (nose_pos - (th_nose * 0.8)) / 0.2))` (line 266). -/
def pitchF (th_nose : ℚ) (f : FrameFeatures) : ℚ :=
  max 0 (min 1 ((nosePos f - th_nose * (8/10)) / (2/10)))

/-- `ear_f = max(0, min(1, ((th_ear * 1.2) - avg_ear) / (th_ear * 0.5)))` (line 267). -/
def earF (th_ear : ℚ) (f : FrameFeatures) : ℚ :=
  max 0 (min 1 ((th_ear * (12/10) - avgEar f) / (th_ear * (5/10))))

/-- `roll_f = min(abs(roll) / 18.0, 1.0)` (line 277). -/
def rollF (f : FrameFeatures) : ℚ := min (|f.roll| / 18) 1

/-- Combined fatigue (lines 282–284): the clamped weighted factor sum,
rounded to 3 decimals; `hd1` is the already-updated `head_down_n`. -/
def fatigueOf (th : Thresholds) (f : FrameFeatures) (hd1 : ℕ) : ℚ :=
  pyRound (max (2/100) (min (98/100)
    (35/100 * pitchF th.th_nose f + 35/100 * earF th.th_ear f
      + 15/100 * rollF f + 15/100 * min ((hd1 : ℚ) / 5) 1))) 3

/-- The body-action label as the source assigns it (lines 257–288): `action`
starts `"normal"`, is overwritten by `"head_down"`, `"looking_up"`,
`"head_tilt"`, `"stressed"` in that textual order, so a later assignment
overrides an earlier one.  `hd1` is the already-updated `head_down_n`. -/
def bodyActionOf (th : Thresholds) (f : FrameFeatures) (hd1 : ℕ)
    (fatigue : ℚ) (prev_emotion : String) : String :=
  let a1 := if nosePos f > th.th_nose then "head_down" else "normal"
  let a2 := if nosePos f < th.th_nose * (6/10) then "looking_up" else a1
  let a3 := if |f.roll| > 15 then "head_tilt" else a2
  if fatigue > 1/2 ∧ 3 < hd1 ∧
      (prev_emotion = "sad" ∨ prev_emotion = "neutral" ∨ prev_emotion = "fear")
    then "stressed" else a3

/-- Gaze classification (lines 291–293). -/
def gazeOf (f : FrameFeatures) : String :=
  if |(f.le_x + f.re_x) / 2 - f.nose_x| < 3/100 then "CENTER"
  else if (f.le_x + f.re_x) / 2 > f.nose_x then "RIGHT" else "LEFT"

/-- The pure off-center-ratio ramp of the raw distraction score
(lines 301–305): `40·r` above `0.6`, `15·r` on `(0.3, 0.6]`, else `0`. -/
def rawRamp (r : ℚ) : ℚ :=
  if r > 6/10 then 40 * r else if r > 3/10 then 15 * r else 0

/-- `m_ratio = mouth_h / mouth_w if mouth_w > 0 else 0.0` (lines 317–320). -/
def mouthRatio (f : FrameFeatures) : ℚ :=
  if |f.lip_right_x - f.lip_left_x| > 0 then
    |f.mouth_bottom_y - f.mouth_top_y| / |f.lip_right_x - f.lip_left_x|
  else 0

/-- `lip_stretch = abs(right_lip.x - left_lip.x)` (lines 322–324). -/
def lipStretch (f : FrameFeatures) : ℚ := |f.lip_right_x - f.lip_left_x|

/-- `brow_raise = nose_bridge - avg_brow` (lines 326–330). -/
def browRaise (f : FrameFeatures) : ℚ :=
  f.nose_bridge_y -
    ((f.brow_l1_y + f.brow_l2_y) / 2 + (f.brow_r1_y + f.brow_r2_y) / 2) / 2

/-- The emotion decision tree (lines 332–359): first matching rule wins.
`el1` is the already-updated `eyes_low_n`, `fatigue` the rounded fatigue
score of this frame. -/
def emotionOf (th : Thresholds) (f : FrameFeatures) (el1 : ℕ)
    (fatigue : ℚ) : String × ℚ :=
  if mouthRatio f > th.th_mouth * 4 ∧ browRaise f > th.th_brow * (5/2) then
    ("surprised", 9/10)
  else if mouthRatio f > th.th_mouth ∧ lipStretch f > 14/100 then
    ("happy", 85/100)
  else if avgEar f < th.th_ear ∧ pitchF th.th_nose f > 1/2 then
    ("tired", 9/10)
  else if browRaise f < th.th_brow ∧ mouthRatio f < th.th_mouth * (5/10) then
    (if avgEar f < th.th_ear then ("sad", 3/4) else ("angry", 7/10))
  else if fatigue > 6/10 then ("tired", 85/100)
  else if 4 < el1 then ("tired", 8/10)
  else ("neutral", 9/10)

/-- The raw pre-clamp distraction score of one frame (lines 301–310): the
ramp of the off-center ratio `r`, plus `+10` for a tilted head with a
sustained off-center ratio and `+15` for a sustained head-down pose. -/
def rawOf (f : FrameFeatures) (hd1 : ℕ) (action : String) (r : ℚ) : ℚ :=
  let raw1 := rawRamp r
  let raw2 := if |f.roll| > 15 ∧ r > 4/10 then raw1 + 10 else raw1
  if action = "head_down" ∧ 5 < hd1 then raw2 + 15 else raw2

/-- The per-frame instantaneous distraction value pushed into the rolling
window (line 312): the raw score clamped to `[2, 95]` and rounded to two
decimals. -/
def instantOf (f : FrameFeatures) (hd1 : ℕ) (action : String) (r : ℚ) : ℚ :=
  pyRound (max 2 (min 95 (rawOf f hd1 action r))) 2

/-- The landmark branch of `_face` (server.py lines 220–371): the full
per-frame pipeline once MediaPipe has produced landmarks, returning the
result dict and the updated smoothing state. -/
def faceLandmarks (th : Thresholds) (f : FrameFeatures)
    (s : SessionState) : AnalysisResult × SessionState :=
  let blink := pyRound (avgEar f) 3
  let hd1 := if nosePos f > th.th_nose then s.head_down_n + 1 else s.head_down_n - 1
  let el1 := if avgEar f < th.th_ear then s.eyes_low_n + 1 else s.eyes_low_n - 1
  let fatigue := fatigueOf th f hd1
  let action := bodyActionOf th f hd1 fatigue s.prev_emotion
  let gaze := gazeOf f
  let isOff : ℕ := if gaze ≠ "CENTER" then 1 else 0
  let gh := dequePush 10 isOff s.gaze_history
  let offCount : ℕ := if 0 < gh.length then gh.sum else 0
  let offRatio : ℚ := (offCount : ℚ) / ((max gh.length 1 : ℕ) : ℚ)
  let instant := instantOf f hd1 action offRatio
  let dh := dequePush 10 instant s.distraction_history
  let distraction := pyRound (dh.sum / ((max dh.length 1 : ℕ) : ℚ)) 2
  let e := emotionOf th f el1 fatigue
  (⟨fatigue, gaze, distraction, blink, e.1, e.2, action⟩,
   ⟨e.1, e.2, hd1, el1, gh, dh⟩)

/-- The no-landmark branch of `_face` (lines 208–218): increment the shared
`head_down_n` counter, report `no_face` with distraction `50.0` once the
streak exceeds 5, otherwise the defaults set at lines 181–187; emotion and
confidence are carried over from the previous frame; gaze is `UNKNOWN`. -/
def faceNoLandmarks (s : SessionState) : AnalysisResult × SessionState :=
  let hd1 := s.head_down_n + 1
  ( { fatigue_score := 1/20
      gaze_direction := "UNKNOWN"
      distraction_score := if 5 < hd1 then 50 else 5
      blink_rate := 28/100
      emotion := s.prev_emotion
      emotion_confidence := s.prev_conf
      body_action := if 5 < hd1 then "no_face" else "normal" },
    { s with head_down_n := hd1 } )

/-- `_default()` (lines 374–380): the result for a frame whose image fails
to decode. -/
def defaultResult (prev_emotion : String) : AnalysisResult :=
  { fatigue_score := 1/20
    gaze_direction := "UNKNOWN"
    distraction_score := 5
    blink_rate := 3/10
    emotion := prev_emotion
    emotion_confidence := 3/10
    body_action := "unknown" }

/-- The Haar-cascade fallback branch of `_face` (lines 189–201), taken when
MediaPipe is unavailable: only face presence is tested (`faceCount` is
`len(faces)`); state is not touched. -/
def faceNoMediapipe (faceCount : ℕ) (s : SessionState) :
    AnalysisResult × SessionState :=
  ( { fatigue_score := 1/20
      gaze_direction := "CENTER"
      distraction_score := if faceCount = 0 then 60 else 5
      blink_rate := 28/100
      emotion := s.prev_emotion
      emotion_confidence := s.prev_conf
      body_action := if faceCount = 0 then "no_face" else "normal" },
    s )

/-- The possible shapes of one frame handed to `_face` on the MediaPipe
path: the image fails to decode, it decodes but no face landmarks are
found, or landmarks are found and yield the given features. -/
inductive FaceInput where
  | decodeFail : FaceInput
  | noLandmarks : FaceInput
  | landmarks : FrameFeatures → FaceInput

/-- `_face` on the MediaPipe path (lines 174–371), dispatching on the
frame shape; thresholds are derived from the calibration profile. -/
def face (c : CalibProfile) : FaceInput → SessionState → AnalysisResult × SessionState
  | .decodeFail, s => (defaultResult s.prev_emotion, s)
  | .noLandmarks, s => faceNoLandmarks s
  | .landmarks f, s => faceLandmarks (thresholdsOf c) f s

/-- Iterated state of feeding the same landmark features frame after
frame. -/
def iterState (th : Thresholds) (f : FrameFeatures) : ℕ → SessionState → SessionState
  | 0, s => s
  | n + 1, s => iterState th f n (faceLandmarks th f s).2

/-- Euclidean distance between two points, as `np.linalg.norm(p - q)` on
2-vectors. -/
noncomputable def edist2 (p q : ℝ × ℝ) : ℝ :=
  Real.sqrt ((p.1 - q.1) ^ 2 + (p.2 - q.2) ^ 2)

/-- The per-eye EAR helper `ear(idx)` (server.py lines 240–245) on the six
ordered eye-contour points: `(A + B) / (2.0 * C) if C > 0 else 0.25`. -/
noncomputable def earOf (p0 p1 p2 p3 p4 p5 : ℝ × ℝ) : ℝ :=
  if edist2 p0 p3 > 0 then
    (edist2 p1 p5 + edist2 p2 p4) / (2 * edist2 p0 p3)
  else 1/4

/-! ### Helper lemmas about rounding and the bounded deque -/

theorem le_pyRoundInt {m : ℤ} {x : ℚ} (h : (m : ℚ) ≤ x) : m ≤ pyRoundInt x := by
  have hm : m ≤ ⌊x⌋ := Int.le_floor.mpr h
  unfold pyRoundInt
  split_ifs <;> omega

theorem pyRoundInt_le {m : ℤ} {x : ℚ} (h : x ≤ (m : ℚ)) : pyRoundInt x ≤ m := by
  have hm : ⌊x⌋ ≤ m := by
    have := Int.floor_le_floor h
    simpa using this
  unfold pyRoundInt
  split_ifs with h1 h2 h3
  · exact hm
  · have hlt : ⌊x⌋ < m := by
      rcases hm.lt_or_eq with h' | h'
      · exact h'
      · exfalso
        apply h1
        have hx : x - (⌊x⌋ : ℚ) ≤ 0 := by
          rw [h']
          linarith
        linarith
    omega
  · exact hm
  · have hhalf : x - (⌊x⌋ : ℚ) = 1/2 := le_antisymm (not_lt.mp h2) (not_lt.mp h1)
    have hlt : (⌊x⌋ : ℚ) < (m : ℚ) := by linarith
    have : ⌊x⌋ < m := by exact_mod_cast hlt
    omega

theorem pyRound_ge {m : ℤ} {x : ℚ} {d : ℕ} (h : (m : ℚ) / 10 ^ d ≤ x) :
    (m : ℚ) / 10 ^ d ≤ pyRound x d := by
  have hp : (0 : ℚ) < 10 ^ d := by positivity
  unfold pyRound
  rw [div_le_div_iff_of_pos_right hp]
  have hx : (m : ℚ) ≤ x * 10 ^ d := by
    rw [div_le_iff₀ hp] at h
    exact h
  exact_mod_cast le_pyRoundInt hx

theorem pyRound_le {m : ℤ} {x : ℚ} {d : ℕ} (h : x ≤ (m : ℚ) / 10 ^ d) :
    pyRound x d ≤ (m : ℚ) / 10 ^ d := by
  have hp : (0 : ℚ) < 10 ^ d := by positivity
  unfold pyRound
  rw [div_le_div_iff_of_pos_right hp]
  have hx : x * 10 ^ d ≤ (m : ℚ) := by
    rw [le_div_iff₀ hp] at h
    exact h
  exact_mod_cast pyRoundInt_le hx

theorem pyRoundInt_intCast (k : ℤ) : pyRoundInt (k : ℚ) = k := by
  unfold pyRoundInt
  rw [Int.floor_intCast]
  norm_num

theorem pyRound_pyRound (x : ℚ) (d : ℕ) : pyRound (pyRound x d) d = pyRound x d := by
  have hp : (10 : ℚ) ^ d ≠ 0 := by positivity
  unfold pyRound
  rw [div_mul_cancel₀ _ hp, pyRoundInt_intCast]

theorem dequePush_full_replicate {α : Type} (x : α) :
    dequePush 10 x (List.replicate 10 x) = List.replicate 10 x := by
  unfold dequePush
  rw [← List.replicate_succ' 10 x]
  simp

/-! ### C3: fatigue score bounds -/

theorem clampRound3_bounds (v : ℚ) :
    2/100 ≤ pyRound (max (2/100) (min (98/100) v)) 3 ∧
    pyRound (max (2/100) (min (98/100) v)) 3 ≤ 98/100 := by
  constructor
  · have h1 : ((20 : ℤ) : ℚ) / 10 ^ 3 ≤ max (2/100) (min (98/100) v) :=
      le_trans (by norm_num) (le_max_left _ _)
    calc (2/100 : ℚ) = ((20 : ℤ) : ℚ) / 10 ^ 3 := by norm_num
      _ ≤ _ := pyRound_ge h1
  · have h1 : max (2/100) (min (98/100) v) ≤ ((980 : ℤ) : ℚ) / 10 ^ 3 := by
      refine max_le (by norm_num) (le_trans (min_le_left _ _) (by norm_num))
    calc pyRound (max (2/100) (min (98/100) v)) 3
        ≤ ((980 : ℤ) : ℚ) / 10 ^ 3 := pyRound_le h1
      _ = 98/100 := by norm_num

/-- C3: for every frame with detected landmarks, for any feature values,
thresholds and session state, the returned `fatigue_score` lies in
`[0.02, 0.98]`, and it is the 3-decimal rounding of the clamp of
`0.35·pitch_factor + 0.35·ear_factor + 0.15·roll_factor +
0.15·min(head_down_streak/5, 1)` to that interval (with the
already-updated streak). -/
theorem c3_fatigue_bounds (th : Thresholds) (f : FrameFeatures) (s : SessionState) :
    2/100 ≤ (faceLandmarks th f s).1.fatigue_score ∧
    (faceLandmarks th f s).1.fatigue_score ≤ 98/100 ∧
    (faceLandmarks th f s).1.fatigue_score =
      pyRound (max (2/100) (min (98/100)
        (35/100 * pitchF th.th_nose f + 35/100 * earF th.th_ear f
          + 15/100 * rollF f + 15/100 * min
            (((if nosePos f > th.th_nose then s.head_down_n + 1
                else s.head_down_n - 1 : ℕ) : ℚ) / 5) 1))) 3 := by
  have hb := clampRound3_bounds
    (35/100 * pitchF th.th_nose f + 35/100 * earF th.th_ear f
      + 15/100 * rollF f + 15/100 * min
        (((if nosePos f > th.th_nose then s.head_down_n + 1
            else s.head_down_n - 1 : ℕ) : ℚ) / 5) 1)
  exact ⟨hb.1, hb.2, rfl⟩

/-! ### C7: the raw distraction ramp -/

/-- C7: the raw pre-clamp distraction contribution is the piecewise ramp
`40·r` for `r > 0.6`, `15·r` for `0.3 < r ≤ 0.6`, else `0`, and at
`r = 0.2, 0.5, 0.8` it takes the strictly increasing values
`0, 7.5, 32`. -/
theorem c7_ramp :
    (∀ r : ℚ, (r > 6/10 → rawRamp r = 40 * r) ∧
      (3/10 < r → r ≤ 6/10 → rawRamp r = 15 * r) ∧
      (r ≤ 3/10 → rawRamp r = 0)) ∧
    rawRamp (2/10) = 0 ∧ rawRamp (5/10) = 75/10 ∧ rawRamp (8/10) = 32 ∧
    rawRamp (2/10) < rawRamp (5/10) ∧ rawRamp (5/10) < rawRamp (8/10) := by
  have hr : ∀ r : ℚ, (r > 6/10 → rawRamp r = 40 * r) ∧
      (3/10 < r → r ≤ 6/10 → rawRamp r = 15 * r) ∧
      (r ≤ 3/10 → rawRamp r = 0) := by
    intro r
    unfold rawRamp
    refine ⟨fun h => by rw [if_pos h], fun h1 h2 => ?_, fun h => ?_⟩
    · rw [if_neg (by linarith), if_pos h1]
    · rw [if_neg (by linarith), if_neg (by linarith)]
  refine ⟨hr, ?_, ?_, ?_, ?_, ?_⟩ <;> norm_num [rawRamp]

/-- Witness for C7 at a concrete ratio with the hypotheses discharged. -/
theorem c7_ramp_witness : rawRamp (7/10) = 28 := by
  have h := (c7_ramp.1 (7/10)).1 (by norm_num)
  rw [h]
  norm_num

/-! ### C6: calibration fallback -/

/-- C6: a missing calibration file and a malformed one both yield the empty
profile (loading is a total function — it never raises), and the empty
profile, or any profile missing the relevant categories, yields exactly the
fallback thresholds `th_ear = 0.22`, `th_nose = 0.65`, `th_mouth = 0.08`,
`th_brow = 0.015`. -/
theorem c6_calibration_fallback :
    loadCalibration none = emptyProfile ∧
    loadCalibration (some none) = emptyProfile ∧
    thresholdsOf emptyProfile = ⟨22/100, 65/100, 8/100, 15/1000⟩ ∧
    ∀ c : CalibProfile,
      ((c.fatigue = none ∨ c.focus = none) →
        (thresholdsOf c).th_ear = 22/100 ∧ (thresholdsOf c).th_nose = 65/100) ∧
      (c.happy = none → (thresholdsOf c).th_mouth = 8/100) ∧
      (c.sad = none → (thresholdsOf c).th_brow = 15/1000) := by
  refine ⟨rfl, rfl, rfl, ?_⟩
  rintro ⟨cf, cfo, ch, cs⟩
  refine ⟨?_, ?_, ?_⟩
  · rintro (h | h) <;> simp only at h <;> subst h
    · exact ⟨by cases cfo <;> rfl, by cases cfo <;> rfl⟩
    · exact ⟨by cases cf <;> rfl, by cases cf <;> rfl⟩
  · intro h
    simp only at h
    subst h
    rfl
  · intro h
    simp only at h
    subst h
    rfl

/-- Witness for C6: the empty profile discharges the category-missing
hypotheses. -/
theorem c6_calibration_fallback_witness :
    (thresholdsOf emptyProfile).th_ear = 22/100 ∧
    (thresholdsOf emptyProfile).th_mouth = 8/100 ∧
    (thresholdsOf emptyProfile).th_brow = 15/1000 :=
  ⟨((c6_calibration_fallback.2.2.2 emptyProfile).1 (Or.inl rfl)).1,
   (c6_calibration_fallback.2.2.2 emptyProfile).2.1 rfl,
   (c6_calibration_fallback.2.2.2 emptyProfile).2.2 rfl⟩

/-! ### C9: the set of body-action values -/

/-- C9 (amended): for every frame that decodes — no-landmark frames,
landmark frames, and the Haar-cascade fallback — the reported `body_action`
is one of the six wire-contract values; a frame whose image fails to decode,
however, reports the seventh value `"unknown"` (from `_default`). -/
theorem c9_bodyAction_values :
    ∀ (c : CalibProfile) (s : SessionState),
      (face c .decodeFail s).1.body_action = "unknown" ∧
      (face c .noLandmarks s).1.body_action ∈
        (["normal", "head_down", "looking_up", "head_tilt", "stressed",
          "no_face"] : List String) ∧
      (∀ f : FrameFeatures, (face c (.landmarks f) s).1.body_action ∈
        (["normal", "head_down", "looking_up", "head_tilt", "stressed",
          "no_face"] : List String)) ∧
      (∀ k : ℕ, (faceNoMediapipe k s).1.body_action ∈
        (["normal", "head_down", "looking_up", "head_tilt", "stressed",
          "no_face"] : List String)) := by
  intro c s
  refine ⟨rfl, ?_, ?_, ?_⟩
  · show (if 5 < s.head_down_n + 1 then "no_face" else "normal") ∈ _
    split_ifs <;> simp
  · intro f
    show bodyActionOf (thresholdsOf c) f _ _ _ ∈ _
    unfold bodyActionOf
    split_ifs <;> simp
  · intro k
    show (if k = 0 then "no_face" else "normal") ∈ _
    split_ifs <;> simp

/-- C9 counterexample: the claim quantifies over frames that fail to
decode as well, but `_default` reports `body_action = "unknown"`, which is
not one of the six claimed values. -/
theorem c9_counterexample :
    (face emptyProfile .decodeFail ⟨"neutral", 1/2, 0, 0, [], []⟩).1.body_action
      = "unknown" ∧
    "unknown" ∉
      (["normal", "head_down", "looking_up", "head_tilt", "stressed",
        "no_face"] : List String) :=
  ⟨rfl, by decide⟩

/-! ### C10: effect of a decoded frame without landmarks -/

/-- C10: a frame that decodes but has no landmarks increments the single
shared `head_down_n` counter and leaves `eyes_low_n` and both rolling
windows (and the remembered emotion) unchanged; the no-face grace test
reads that same counter (`no_face` is reported exactly when the
incremented counter exceeds 5), and on landmark frames with
`nose_pos > th_nose` the very same counter is the one incremented. -/
theorem c10_noFace_frame_effect :
    ∀ s : SessionState,
      (faceNoLandmarks s).2.head_down_n = s.head_down_n + 1 ∧
      (faceNoLandmarks s).2.eyes_low_n = s.eyes_low_n ∧
      (faceNoLandmarks s).2.gaze_history = s.gaze_history ∧
      (faceNoLandmarks s).2.distraction_history = s.distraction_history ∧
      (faceNoLandmarks s).2.prev_emotion = s.prev_emotion ∧
      ((faceNoLandmarks s).1.body_action = "no_face" ↔ 5 < s.head_down_n + 1) ∧
      ∀ (th : Thresholds) (f : FrameFeatures), nosePos f > th.th_nose →
        (faceLandmarks th f s).2.head_down_n = s.head_down_n + 1 := by
  intro s
  refine ⟨rfl, rfl, rfl, rfl, rfl, ?_, ?_⟩
  · show (if 5 < s.head_down_n + 1 then "no_face" else "normal") = "no_face" ↔ _
    by_cases h : 5 < s.head_down_n + 1 <;> simp [h]
  · intro th f h
    show (if nosePos f > th.th_nose then s.head_down_n + 1
      else s.head_down_n - 1) = s.head_down_n + 1
    rw [if_pos h]

/-! ### Concrete inputs shared by witnesses and counterexamples -/

/-- Concrete landmark features: head far down (`nose_pos = 0.9`), eyes
nearly shut (`ear = 0.1`) and a 20-degree roll. -/
def fHeadDownTilt : FrameFeatures :=
  ⟨9/10, 0, 1, 1/2, 1/2, 1/2, 1/10, 1/10, 20, 0, 0, 0, 0, 0, 0, 0, 0, 0⟩

/-- Concrete session state with a long head-down streak and a remembered
neutral emotion. -/
def sLongStreak : SessionState := ⟨"neutral", 1/2, 10, 0, [], []⟩

/-- Witness for C10: a landmark frame with `nose_pos = 0.9 > 0.65`
increments the shared counter from 10 to 11. -/
theorem c10_noFace_frame_effect_witness :
    (faceLandmarks (thresholdsOf emptyProfile) fHeadDownTilt
      sLongStreak).2.head_down_n = 11 :=
  (c10_noFace_frame_effect sLongStreak).2.2.2.2.2.2
    (thresholdsOf emptyProfile) fHeadDownTilt
    (by norm_num [nosePos, fHeadDownTilt, thresholdsOf, emptyProfile])

/-! ### C1: body-action priority order -/

/-- The body-action selection written as a priority list with earlier rules
winning, in the order the code effectively implements (latest assignment
wins, so the textually last rule has the highest priority): `stressed`,
then `head_tilt`, then `looking_up`, then `head_down`, else `normal`. -/
def specBodyActionPriority (th : Thresholds) (f : FrameFeatures) (hd1 : ℕ)
    (fatigue : ℚ) (prev_emotion : String) : String :=
  if fatigue > 1/2 ∧ 3 < hd1 ∧
      (prev_emotion = "sad" ∨ prev_emotion = "neutral" ∨ prev_emotion = "fear")
    then "stressed"
  else if |f.roll| > 15 then "head_tilt"
  else if nosePos f < th.th_nose * (6/10) then "looking_up"
  else if nosePos f > th.th_nose then "head_down"
  else "normal"

/-- C1 (amended): the body-action label is chosen by evaluating the
predicates in priority order with earlier rules winning, but the effective
order is `no_face` (short-circuit), then `stressed`, then `head_tilt`,
then `looking_up`, then `head_down`, else `normal` — `head_tilt` wins over
`head_down` and `looking_up`, but `stressed` wins over `head_tilt`. -/
theorem c1_bodyAction_priority :
    (∀ (th : Thresholds) (f : FrameFeatures) (hd1 : ℕ) (fatigue : ℚ)
        (pe : String),
      bodyActionOf th f hd1 fatigue pe = specBodyActionPriority th f hd1 fatigue pe) ∧
    ∀ (th : Thresholds) (f : FrameFeatures) (s : SessionState),
      (faceLandmarks th f s).1.body_action =
        bodyActionOf th f
          (if nosePos f > th.th_nose then s.head_down_n + 1
            else s.head_down_n - 1)
          (fatigueOf th f (if nosePos f > th.th_nose then s.head_down_n + 1
            else s.head_down_n - 1))
          s.prev_emotion := by
  constructor
  · intro th f hd1 fatigue pe
    unfold bodyActionOf specBodyActionPriority
    split_ifs <;> rfl
  · intro th f s
    rfl

/-- C1 counterexample: a frame with `|roll| = 20 > 15` whose body action is
`"stressed"`, not `"head_tilt"` — the stressed rule (fatigue 0.98 > 0.5,
streak 11 > 3, last emotion neutral) overrides the tilt rule, refuting the
claimed priority of `head_tilt` over `stressed`. -/
theorem c1_counterexample :
    |fHeadDownTilt.roll| > 15 ∧
    (faceLandmarks (thresholdsOf emptyProfile) fHeadDownTilt
      sLongStreak).1.body_action = "stressed" ∧
    ("stressed" : String) ≠ "head_tilt" := by
  have hn : nosePos fHeadDownTilt > (thresholdsOf emptyProfile).th_nose := by
    norm_num [nosePos, fHeadDownTilt, thresholdsOf, emptyProfile]
  have hhd : (if nosePos fHeadDownTilt > (thresholdsOf emptyProfile).th_nose
      then sLongStreak.head_down_n + 1 else sLongStreak.head_down_n - 1) = 11 := by
    rw [if_pos hn]
    rfl
  have hfat : fatigueOf (thresholdsOf emptyProfile) fHeadDownTilt 11 > 1/2 := by
    norm_num [fatigueOf, pitchF, earF, rollF, nosePos, avgEar, pyRound,
      pyRoundInt, fHeadDownTilt, thresholdsOf, emptyProfile, min_def, max_def]
  refine ⟨by norm_num [fHeadDownTilt], ?_, by decide⟩
  show bodyActionOf (thresholdsOf emptyProfile) fHeadDownTilt
      (if nosePos fHeadDownTilt > (thresholdsOf emptyProfile).th_nose
        then sLongStreak.head_down_n + 1 else sLongStreak.head_down_n - 1)
      (fatigueOf (thresholdsOf emptyProfile) fHeadDownTilt
        (if nosePos fHeadDownTilt > (thresholdsOf emptyProfile).th_nose
          then sLongStreak.head_down_n + 1 else sLongStreak.head_down_n - 1))
      sLongStreak.prev_emotion = "stressed"
  rw [hhd]
  simp only [bodyActionOf]
  rw [if_pos ⟨hfat, by norm_num, Or.inr (Or.inl rfl)⟩]

/-! ### C2: frames that decode but contain no landmarks -/

/-- C2 (amended): a decoded frame without landmarks bypasses the whole
gaze/distraction pipeline (histories untouched, see C10).  Once the no-face
streak exceeds the grace threshold of 5 frames it reports `no_face` with
the fixed elevated distraction 50 (which lies in the 50–60 range); at or
below the threshold it reports the *default* values (fatigue 0.05, gaze
`UNKNOWN`, distraction 5.0, blink 0.28, action `normal`), carrying over
only the previous emotion and its confidence — not the previously reported
scores. -/
theorem c2_noFace_branch :
    ∀ s : SessionState,
      (5 < s.head_down_n + 1 →
        faceNoLandmarks s =
          (⟨1/20, "UNKNOWN", 50, 28/100, s.prev_emotion, s.prev_conf, "no_face"⟩,
           { s with head_down_n := s.head_down_n + 1 })) ∧
      (s.head_down_n + 1 ≤ 5 →
        faceNoLandmarks s =
          (⟨1/20, "UNKNOWN", 5, 28/100, s.prev_emotion, s.prev_conf, "normal"⟩,
           { s with head_down_n := s.head_down_n + 1 })) := by
  intro s
  constructor
  · intro h
    unfold faceNoLandmarks
    dsimp only
    rw [if_pos h, if_pos h]
  · intro h
    unfold faceNoLandmarks
    dsimp only
    rw [if_neg (not_lt.mpr h), if_neg (not_lt.mpr h)]

/-- Witness for C2 with the streak already past the grace threshold. -/
theorem c2_noFace_branch_witness :
    faceNoLandmarks sLongStreak =
      (⟨1/20, "UNKNOWN", 50, 28/100, "neutral", 1/2, "no_face"⟩,
       ⟨"neutral", 1/2, 11, 0, [], []⟩) :=
  (c2_noFace_branch sLongStreak).1 (by norm_num [sLongStreak])

/-- Concrete landmark features with a mid-height nose, shut eyes and a
20-degree roll: the frame before the dropped frame in the C2
counterexample. -/
def fNoseMid : FrameFeatures :=
  ⟨1/2, 0, 1, 1/2, 1/2, 1/2, 0, 0, 20, 0, 0, 0, 0, 0, 0, 0, 0, 0⟩

/-- The fresh session state. -/
def sZero : SessionState := ⟨"neutral", 1/2, 0, 0, [], []⟩

/-- C2 counterexample: a landmark frame reports fatigue `0.5` and
distraction `2`; the immediately following no-landmark frame (streak
`1 ≤ 5`) does *not* reuse those previously reported scores — it reports
the defaults `0.05` and `5.0` instead. -/
theorem c2_counterexample :
    (faceNoLandmarks
      (faceLandmarks (thresholdsOf emptyProfile) fNoseMid sZero).2).2.head_down_n ≤ 5 ∧
    (faceLandmarks (thresholdsOf emptyProfile) fNoseMid sZero).1.fatigue_score = 1/2 ∧
    (faceLandmarks (thresholdsOf emptyProfile) fNoseMid sZero).1.distraction_score = 2 ∧
    (faceNoLandmarks
      (faceLandmarks (thresholdsOf emptyProfile) fNoseMid sZero).2).1.fatigue_score = 1/20 ∧
    (faceNoLandmarks
      (faceLandmarks (thresholdsOf emptyProfile) fNoseMid sZero).2).1.distraction_score = 5 ∧
    ((1 : ℚ)/20 ≠ 1/2) ∧ ((5 : ℚ) ≠ 2) := by
  have h0 : (faceLandmarks (thresholdsOf emptyProfile) fNoseMid sZero).2.head_down_n = 0 := by
    norm_num [faceLandmarks, fatigueOf, bodyActionOf, pitchF, earF, rollF,
      nosePos, avgEar, gazeOf, rawRamp, mouthRatio, lipStretch, browRaise,
      emotionOf, instantOf, rawOf, dequePush, pyRound, pyRoundInt,
      min_def, max_def, fNoseMid, sZero, thresholdsOf, emptyProfile]
  refine ⟨?_, ?_, ?_, ?_, ?_, by norm_num, by norm_num⟩
  · show (faceLandmarks (thresholdsOf emptyProfile) fNoseMid sZero).2.head_down_n + 1 ≤ 5
    rw [h0]
    norm_num
  · norm_num [faceLandmarks, fatigueOf, bodyActionOf, pitchF, earF, rollF,
      nosePos, avgEar, gazeOf, rawRamp, mouthRatio, lipStretch, browRaise,
      emotionOf, instantOf, rawOf, dequePush, pyRound, pyRoundInt,
      min_def, max_def, fNoseMid, sZero, thresholdsOf, emptyProfile]
  · norm_num [faceLandmarks, fatigueOf, bodyActionOf, pitchF, earF, rollF,
      nosePos, avgEar, gazeOf, rawRamp, mouthRatio, lipStretch, browRaise,
      emotionOf, instantOf, rawOf, dequePush, pyRound, pyRoundInt,
      min_def, max_def, fNoseMid, sZero, thresholdsOf, emptyProfile]
  · rfl
  · show (if 5 < (faceLandmarks (thresholdsOf emptyProfile) fNoseMid sZero).2.head_down_n + 1
      then (50 : ℚ) else 5) = 5
    rw [h0]
    norm_num

/-! ### C5: the emotion decision tree -/

/-- The emotion decision tree exactly as the specification words it:
seven rules in fixed priority order, first match wins. -/
def specEmotionRules (th : Thresholds) (mouth_ratio lip_stretch ear
    brow_raise pitch_factor fatigue_score : ℚ) (eyes_low_streak : ℕ) :
    String × ℚ :=
  if mouth_ratio > 4 * th.th_mouth ∧ brow_raise > (5/2) * th.th_brow then
    ("surprised", 9/10)
  else if mouth_ratio > th.th_mouth ∧ lip_stretch > 14/100 then
    ("happy", 85/100)
  else if ear < th.th_ear ∧ pitch_factor > 1/2 then
    ("tired", 9/10)
  else if brow_raise < th.th_brow ∧ mouth_ratio < (5/10) * th.th_mouth then
    (if ear < th.th_ear then ("sad", 3/4) else ("angry", 7/10))
  else if fatigue_score > 6/10 then ("tired", 85/100)
  else if 4 < eyes_low_streak then ("tired", 8/10)
  else ("neutral", 9/10)

/-- C5: on every frame with landmarks, the reported emotion and its
confidence are exactly the outcome of the seven-rule decision tree of the
specification (evaluated on the frame's features, the updated
`eyes_low_n` streak and this frame's fatigue score), and that label and
confidence are written back into the session state (`prev_emotion` /
`prev_conf`) for no-face frames to reuse. -/
theorem c5_emotion_tree (th : Thresholds) (f : FrameFeatures) (s : SessionState) :
    (faceLandmarks th f s).1.emotion =
      (specEmotionRules th (mouthRatio f) (lipStretch f) (avgEar f)
        (browRaise f) (pitchF th.th_nose f)
        ((faceLandmarks th f s).1.fatigue_score)
        (if avgEar f < th.th_ear then s.eyes_low_n + 1 else s.eyes_low_n - 1)).1 ∧
    (faceLandmarks th f s).1.emotion_confidence =
      (specEmotionRules th (mouthRatio f) (lipStretch f) (avgEar f)
        (browRaise f) (pitchF th.th_nose f)
        ((faceLandmarks th f s).1.fatigue_score)
        (if avgEar f < th.th_ear then s.eyes_low_n + 1 else s.eyes_low_n - 1)).2 ∧
    (faceLandmarks th f s).2.prev_emotion = (faceLandmarks th f s).1.emotion ∧
    (faceLandmarks th f s).2.prev_conf = (faceLandmarks th f s).1.emotion_confidence := by
  have key : ∀ (el : ℕ) (fat : ℚ),
      emotionOf th f el fat =
        specEmotionRules th (mouthRatio f) (lipStretch f) (avgEar f)
          (browRaise f) (pitchF th.th_nose f) fat el := by
    intro el fat
    simp only [emotionOf, specEmotionRules, mul_comm]
  exact ⟨congrArg Prod.fst (key _ _), congrArg Prod.snd (key _ _), rfl, rfl⟩

/-! ### C4: the per-eye EAR helper -/

theorem edist2_horiz (a b c : ℝ) : edist2 (a, c) (b, c) = |a - b| := by
  unfold edist2
  dsimp only
  rw [sub_self, show ((0:ℝ))^2 = 0 by norm_num, add_zero, Real.sqrt_sq_eq_abs]

theorem edist2_vert (a b c : ℝ) : edist2 (c, a) (c, b) = |a - b| := by
  unfold edist2
  dsimp only
  rw [sub_self, show ((0:ℝ))^2 = 0 by norm_num, zero_add, Real.sqrt_sq_eq_abs]

/-- C4 (amended): given 6 ordered eye-contour points, the per-eye EAR is
`(‖p1-p5‖ + ‖p2-p4‖) / (2·‖p0-p3‖)` whenever the horizontal distance
`‖p0-p3‖` is nonzero, and exactly `0.25` when it is zero; for nonzero
horizontal distance the value is a well-defined nonnegative real — but it
is *not* bounded by 1 (see the counterexample). -/
theorem c4_ear_properties (p0 p1 p2 p3 p4 p5 : ℝ × ℝ) :
    (edist2 p0 p3 ≠ 0 →
      earOf p0 p1 p2 p3 p4 p5 =
        (edist2 p1 p5 + edist2 p2 p4) / (2 * edist2 p0 p3) ∧
      0 ≤ earOf p0 p1 p2 p3 p4 p5) ∧
    (edist2 p0 p3 = 0 → earOf p0 p1 p2 p3 p4 p5 = 1/4) := by
  have hC : 0 ≤ edist2 p0 p3 := Real.sqrt_nonneg _
  constructor
  · intro h
    have hpos : edist2 p0 p3 > 0 := lt_of_le_of_ne hC (Ne.symm h)
    refine ⟨?_, ?_⟩
    · unfold earOf
      rw [if_pos hpos]
    · unfold earOf
      rw [if_pos hpos]
      apply div_nonneg (add_nonneg (Real.sqrt_nonneg _) (Real.sqrt_nonneg _))
      linarith
  · intro h
    unfold earOf
    rw [if_neg (by rw [h]; exact lt_irrefl 0)]

/-- Witness for C4 at six concrete points with nonzero horizontal
distance. -/
theorem c4_ear_properties_witness :
    0 ≤ earOf ((0:ℝ), 0) (0, 0) (0, 0) (1, 0) (0, 0) (0, 0) :=
  ((c4_ear_properties _ _ _ _ _ _).1 (by rw [edist2_horiz]; norm_num)).2

/-- C4 counterexample: six valid contour points in the unit square with
nonzero horizontal distance `0.1` whose EAR is `10`, refuting the claimed
bound `ear ≤ 1`. -/
theorem c4_counterexample :
    edist2 ((0:ℝ), 0) (1/10, 0) ≠ 0 ∧
    1 < earOf ((0:ℝ), 0) (0, 1) (0, 1) (1/10, 0) (0, 0) (0, 0) := by
  have hC : edist2 ((0:ℝ), 0) (1/10, 0) = 1/10 := by
    rw [edist2_horiz]
    norm_num
  have hA : edist2 ((0:ℝ), 1) ((0:ℝ), 0) = 1 := by
    rw [edist2_vert]
    norm_num
  constructor
  · rw [hC]
    norm_num
  · unfold earOf
    rw [if_pos (by rw [hC]; norm_num), hC, hA]
    norm_num


/-! ### C8: convergence of the distraction score under constant features -/

/-- Saturated stand-in for `head_down_n` once the streak effects have
stabilised under constant features: any value `≥ 6` behaves like 7 when the
nose is below the threshold every frame, and the counter is pinned at 0
otherwise. -/
def steadyHdRep (th : Thresholds) (f : FrameFeatures) : ℕ :=
  if nosePos f > th.th_nose then 7 else 0

/-- Saturated stand-in for `eyes_low_n` (any value `≥ 5` behaves like 6). -/
def steadyElRep (th : Thresholds) (f : FrameFeatures) : ℕ :=
  if avgEar f < th.th_ear then 6 else 0

/-- The fatigue score a frame reports once the streaks have saturated. -/
def steadyFatigue (th : Thresholds) (f : FrameFeatures) : ℚ :=
  fatigueOf th f (steadyHdRep th f)

/-- The emotion and confidence a frame reports once the streaks have
saturated. -/
def steadyEmotionPair (th : Thresholds) (f : FrameFeatures) : String × ℚ :=
  emotionOf th f (steadyElRep th f) (steadyFatigue th f)

/-- The body action a frame reports once the streaks have saturated and the
remembered emotion equals the steady emotion. -/
def steadyAction (th : Thresholds) (f : FrameFeatures) : String :=
  bodyActionOf th f (steadyHdRep th f) (steadyFatigue th f) (steadyEmotionPair th f).1

/-- The 0/1 off-center bit pushed into `gaze_history` each frame. -/
def steadyBit (f : FrameFeatures) : ℕ := if gazeOf f ≠ "CENTER" then 1 else 0

/-- The constant per-frame instantaneous distraction value under constant
features: the single-frame clamped ramp value (with its roll / head-down
bonuses) evaluated at the saturated state, where the off-center ratio of a
window full of the constant bit is that bit itself. -/
def steadyInstant (th : Thresholds) (f : FrameFeatures) : ℚ :=
  instantOf f (steadyHdRep th f) (steadyAction th f) ((steadyBit f : ℕ) : ℚ)

/-- The steady regime for constant features `f`: both capacity-10 rolling
windows are filled with the constant per-frame values, the streak counters
are saturated, and the remembered emotion is the steady one.  Feeding `f`
keeps the session in this set (proved below). -/
def SteadyFor (th : Thresholds) (f : FrameFeatures) (s : SessionState) : Prop :=
  (if nosePos f > th.th_nose then 6 ≤ s.head_down_n else s.head_down_n = 0) ∧
  (if avgEar f < th.th_ear then 5 ≤ s.eyes_low_n else s.eyes_low_n = 0) ∧
  s.prev_emotion = (steadyEmotionPair th f).1 ∧
  s.prev_conf = (steadyEmotionPair th f).2 ∧
  s.gaze_history = List.replicate 10 (steadyBit f) ∧
  s.distraction_history = List.replicate 10 (steadyInstant th f)

theorem min_div_five_sat {n : ℕ} (h : 5 ≤ n) : min ((n : ℚ) / 5) 1 = 1 := by
  rw [min_eq_right]
  rw [le_div_iff₀ (by norm_num : (0:ℚ) < 5)]
  norm_num
  exact_mod_cast h

theorem fatigueOf_hd_congr (th : Thresholds) (f : FrameFeatures) {a b : ℕ}
    (h : min ((a : ℚ) / 5) 1 = min ((b : ℚ) / 5) 1) :
    fatigueOf th f a = fatigueOf th f b := by
  unfold fatigueOf
  rw [h]

theorem emotionOf_el_congr (th : Thresholds) (f : FrameFeatures) (fat : ℚ)
    {a b : ℕ} (h : (4 < a) = (4 < b)) :
    emotionOf th f a fat = emotionOf th f b fat := by
  simp only [emotionOf, h]

theorem bodyActionOf_hd_congr (th : Thresholds) (f : FrameFeatures) (fat : ℚ)
    (pe : String) {a b : ℕ} (h : (3 < a) = (3 < b)) :
    bodyActionOf th f a fat pe = bodyActionOf th f b fat pe := by
  simp only [bodyActionOf, h]

theorem instantOf_hd_congr (f : FrameFeatures) (act : String) (r : ℚ)
    {a b : ℕ} (h : (5 < a) = (5 < b)) :
    instantOf f a act r = instantOf f b act r := by
  simp only [instantOf, rawOf, h]

theorem steady_hd_facts (th : Thresholds) (f : FrameFeatures) (n : ℕ)
    (hhd : if nosePos f > th.th_nose then 6 ≤ n else n = 0) :
    ((3 < (if nosePos f > th.th_nose then n + 1 else n - 1)) = (3 < steadyHdRep th f)) ∧
    ((5 < (if nosePos f > th.th_nose then n + 1 else n - 1)) = (5 < steadyHdRep th f)) ∧
    (min (((if nosePos f > th.th_nose then n + 1 else n - 1 : ℕ) : ℚ) / 5) 1
      = min ((steadyHdRep th f : ℚ) / 5) 1) ∧
    (if nosePos f > th.th_nose
      then 6 ≤ (if nosePos f > th.th_nose then n + 1 else n - 1)
      else (if nosePos f > th.th_nose then n + 1 else n - 1) = 0) := by
  unfold steadyHdRep
  by_cases hn : nosePos f > th.th_nose
  · rw [if_pos hn] at hhd
    simp only [if_pos hn]
    refine ⟨by rw [eq_iff_iff]; omega, by rw [eq_iff_iff]; omega, ?_, by omega⟩
    rw [min_div_five_sat (by omega), min_div_five_sat (by norm_num)]
  · rw [if_neg hn] at hhd
    simp only [if_neg hn]
    subst hhd
    exact ⟨rfl, rfl, by norm_num, rfl⟩

theorem steady_el_facts (th : Thresholds) (f : FrameFeatures) (n : ℕ)
    (hel : if avgEar f < th.th_ear then 5 ≤ n else n = 0) :
    ((4 < (if avgEar f < th.th_ear then n + 1 else n - 1)) = (4 < steadyElRep th f)) ∧
    (if avgEar f < th.th_ear
      then 5 ≤ (if avgEar f < th.th_ear then n + 1 else n - 1)
      else (if avgEar f < th.th_ear then n + 1 else n - 1) = 0) := by
  unfold steadyElRep
  by_cases he : avgEar f < th.th_ear
  · rw [if_pos he] at hel
    simp only [if_pos he]
    exact ⟨by rw [eq_iff_iff]; omega, by omega⟩
  · rw [if_neg he] at hel
    simp only [if_neg he]
    subst hel
    exact ⟨rfl, rfl⟩

theorem replicate_off_ratio (b : ℕ) :
    (((if 0 < (List.replicate 10 b).length then (List.replicate 10 b).sum else 0 : ℕ)) : ℚ) /
      ((max (List.replicate 10 b).length 1 : ℕ) : ℚ) = (b : ℚ) := by
  simp only [List.length_replicate, List.sum_replicate, smul_eq_mul]
  norm_num

theorem replicate_mean_rat (v : ℚ) :
    (List.replicate 10 v).sum / ((max (List.replicate 10 v).length 1 : ℕ) : ℚ) = v := by
  simp only [List.length_replicate, List.sum_replicate, smul_eq_mul]
  norm_num

/-- A reported `head_down` action forces `nose_pos > th_nose` (every other
branch of the assignment chain yields a different label). -/
theorem bodyActionOf_head_down (th : Thresholds) (f : FrameFeatures)
    (hd1 : ℕ) (fat : ℚ) (pe : String)
    (h : bodyActionOf th f hd1 fat pe = "head_down") :
    nosePos f > th.th_nose := by
  unfold bodyActionOf at h
  dsimp only at h
  split_ifs at h with h1 h2 h3 h4 <;> simp_all

/-- One steady step: in the steady regime the frame reports exactly the
constant per-frame value (the rolling mean of a constant window is that
constant), and the successor state is steady again. -/
theorem faceLandmarks_steady (th : Thresholds) (f : FrameFeatures)
    (s : SessionState) (h : SteadyFor th f s) :
    (faceLandmarks th f s).1.distraction_score = steadyInstant th f ∧
    SteadyFor th f (faceLandmarks th f s).2 := by
  obtain ⟨hhd, hel, hpe, hpc, hgh, hdh⟩ := h
  obtain ⟨h3, h5, hmin, hhd'⟩ := steady_hd_facts th f s.head_down_n hhd
  obtain ⟨h4, hel'⟩ := steady_el_facts th f s.eyes_low_n hel
  have hfat : fatigueOf th f
      (if nosePos f > th.th_nose then s.head_down_n + 1 else s.head_down_n - 1)
      = steadyFatigue th f := fatigueOf_hd_congr th f hmin
  have hact : bodyActionOf th f
      (if nosePos f > th.th_nose then s.head_down_n + 1 else s.head_down_n - 1)
      (fatigueOf th f
        (if nosePos f > th.th_nose then s.head_down_n + 1 else s.head_down_n - 1))
      s.prev_emotion = steadyAction th f := by
    rw [hfat, hpe]
    exact bodyActionOf_hd_congr th f (steadyFatigue th f) (steadyEmotionPair th f).1 h3
  have hem : emotionOf th f
      (if avgEar f < th.th_ear then s.eyes_low_n + 1 else s.eyes_low_n - 1)
      (fatigueOf th f
        (if nosePos f > th.th_nose then s.head_down_n + 1 else s.head_down_n - 1))
      = steadyEmotionPair th f := by
    rw [hfat]
    exact emotionOf_el_congr th f (steadyFatigue th f) h4
  have hghp : dequePush 10 (if gazeOf f ≠ "CENTER" then (1:ℕ) else 0) s.gaze_history
      = List.replicate 10 (steadyBit f) := by
    rw [hgh]
    exact dequePush_full_replicate (steadyBit f)
  have hinst : instantOf f
      (if nosePos f > th.th_nose then s.head_down_n + 1 else s.head_down_n - 1)
      (steadyAction th f) ((steadyBit f : ℕ) : ℚ) = steadyInstant th f :=
    instantOf_hd_congr f (steadyAction th f) ((steadyBit f : ℕ) : ℚ) h5
  constructor
  · simp only [faceLandmarks]
    rw [hghp, replicate_off_ratio, hact, hinst, hdh, dequePush_full_replicate,
      replicate_mean_rat]
    exact pyRound_pyRound _ 2
  · refine ⟨?_, ?_, ?_, ?_, ?_, ?_⟩
    · exact hhd'
    · exact hel'
    · exact congrArg Prod.fst hem
    · exact congrArg Prod.snd hem
    · exact hghp
    · show dequePush 10 (instantOf f _ _ _) s.distraction_history = _
      rw [hghp, replicate_off_ratio, hact, hinst, hdh]
      exact dequePush_full_replicate (steadyInstant th f)

/-- The steady regime is invariant under any number of identical frames. -/
theorem steadyFor_iterState (th : Thresholds) (f : FrameFeatures) :
    ∀ (n : ℕ) (s : SessionState), SteadyFor th f s → SteadyFor th f (iterState th f n s)
  | 0, _, h => h
  | n + 1, s, h => steadyFor_iterState th f n _ ((faceLandmarks_steady th f s h).2)

/-- C8: feeding the same `FrameFeatures` frame after frame, the reported
`distraction_score` is at a stable fixed point: once the capacity-10 gaze
and distraction rolling windows are filled with the constant per-frame
values (and the streak counters have saturated — the regime `SteadyFor`),
every further identical frame reports exactly the single-frame clamped
ramp value `steadyInstant` for those features, and the output never
changes again. -/
theorem c8_distraction_fixed_point (th : Thresholds) (f : FrameFeatures)
    (s : SessionState) (h : SteadyFor th f s) (n : ℕ) :
    (faceLandmarks th f (iterState th f n s)).1.distraction_score = steadyInstant th f :=
  (faceLandmarks_steady th f _ (steadyFor_iterState th f n s h)).1

/-- Concrete features: centered gaze, open eyes, level head. -/
def fCentered : FrameFeatures :=
  ⟨1/2, 0, 1, 1/2, 1/2, 1/2, 3/10, 3/10, 0, 0, 0, 0, 0, 0, 0, 0, 0, 0⟩

/-- The steady state for `fCentered`: windows full of the constant values
`0` (on-center bit) and `2` (clamped ramp floor), zero streaks, remembered
emotion `angry`/`0.7`. -/
def sSteady : SessionState :=
  ⟨"angry", 7/10, 0, 0, List.replicate 10 0, List.replicate 10 2⟩

/-- Witness for C8 at concrete features and a concrete steady state, after
2 further frames; the fixed point evaluates to distraction 2. -/
theorem c8_distraction_fixed_point_witness :
    (faceLandmarks (thresholdsOf emptyProfile) fCentered
      (iterState (thresholdsOf emptyProfile) fCentered 2 sSteady)).1.distraction_score
      = steadyInstant (thresholdsOf emptyProfile) fCentered ∧
    steadyInstant (thresholdsOf emptyProfile) fCentered = 2 := by
  constructor
  · refine c8_distraction_fixed_point _ _ _ ?_ 2
    norm_num [SteadyFor, steadyEmotionPair, steadyFatigue, steadyHdRep,
      steadyElRep, steadyBit, steadyInstant, steadyAction, instantOf, rawOf,
      emotionOf, fatigueOf, bodyActionOf, pitchF, earF, rollF, nosePos,
      avgEar, gazeOf, mouthRatio, lipStretch, browRaise, rawRamp, pyRound,
      pyRoundInt, min_def, max_def, fCentered, sSteady, thresholdsOf,
      emptyProfile]
  · norm_num [steadyBit, steadyInstant, steadyAction, steadyFatigue,
      steadyHdRep, steadyElRep, steadyEmotionPair, instantOf, rawOf,
      emotionOf, fatigueOf, bodyActionOf, pitchF, earF, rollF, nosePos,
      avgEar, gazeOf, mouthRatio, lipStretch, browRaise, rawRamp, pyRound,
      pyRoundInt, min_def, max_def, fCentered, thresholdsOf, emptyProfile]
